import Mathlib

/-!
Verification of the grid-synchronization core of the `libpower` library:
the single-phase SOGI-PLL (`src/pll/spll_1ph_sogi.rs`) and the grid-tied
inverter supervisory state machine (`src/system/on_grid.rs`).

Modelling conventions:
* `f32` values are embedded as exact rationals (`ℚ`); the floating-point
  literals of the source become the corresponding rational constants, and
  the two machine constants `core::f32::consts::PI` and
  `core::f32::consts::SQRT_2` are embedded as the exact rational values of
  those `f32` bit patterns.
* The `libm` primitives `sinf`, `cosf`, `sqrtf` are external to the
  repository; they are abstracted as an arbitrary environment of functions
  `ℚ → ℚ`, so every theorem quantifying over `LibmEnv` holds for any
  implementation of those primitives.
* Rust mutation becomes explicit state passing: each Rust method taking
  `&mut self` becomes a Lean function returning the updated structure.
-/

set_option maxRecDepth 8000

/-- Abstract environment for the `libm` primitives used by the source
(`sinf`, `cosf`, `sqrtf`). The embedding is parametric in these functions. -/
structure LibmEnv where
  sin : ℚ → ℚ
  cos : ℚ → ℚ
  sqrt : ℚ → ℚ

/-- Exact rational value of the `f32` constant `core::f32::consts::PI`. -/
def f32_pi : ℚ := 13176795 / 4194304

/-- Exact rational value of the `f32` constant `core::f32::consts::SQRT_2`. -/
def f32_sqrt2 : ℚ := 11863283 / 8388608

/-- The constant `TWO_PI = 2.0 * core::f32::consts::PI` from `SPLL::calculate`. -/
def TWO_PI : ℚ := 2 * f32_pi

/-- Models the two wraparound while-loops at the end of `SPLL::calculate`
(`while theta >= TWO_PI { theta -= TWO_PI }` followed by
`while theta < 0.0 { theta += TWO_PI }`): over exact rational arithmetic the
loops terminate and return the unique representative of `t` modulo `TWO_PI`
lying in `[0, TWO_PI)`, which is `t - TWO_PI * ⌊t / TWO_PI⌋`. -/
def wrap_two_pi (t : ℚ) : ℚ := t - TWO_PI * ⌊t / TWO_PI⌋

/-- State of the single-phase SOGI-PLL (`struct SPLL` in
`src/pll/spll_1ph_sogi.rs`), all `f32` fields embedded as `ℚ`. -/
structure SPLL where
  nominal_frequency : ℚ
  sampling_frequency : ℚ
  ts : ℚ
  kp : ℚ
  ki : ℚ
  pi_integrator : ℚ
  k_sogi : ℚ
  wn : ℚ
  x1 : ℚ
  x2 : ℚ
  theta : ℚ
  frequency : ℚ
  omega : ℚ
  v_alpha : ℚ
  v_beta : ℚ
  phase_error : ℚ
  delta_omega : ℚ
deriving DecidableEq

/-- Embedding of `SPLL::new(nominal_freq, sampling_freq)`. -/
def SPLL.new (nominal_freq sampling_freq : ℚ) : SPLL :=
  let ts := 1 / sampling_freq
  let wn := 2 * f32_pi * nominal_freq
  { nominal_frequency := nominal_freq
    sampling_frequency := sampling_freq
    ts := ts
    kp := 100
    ki := 5000
    pi_integrator := 0
    k_sogi := 1.414
    wn := wn
    x1 := 0
    x2 := 0
    theta := 0
    frequency := nominal_freq
    omega := wn
    v_alpha := 0
    v_beta := 0
    phase_error := 0
    delta_omega := 0 }

/-- Embedding of `SPLL::calculate(&mut self, input: f32)`: one iteration of
the SOGI-PLL algorithm (SOGI difference equations, phase-error computation,
PI controller, frequency and phase update, phase wraparound). -/
def SPLL.calculate (env : LibmEnv) (input : ℚ) (s : SPLL) : SPLL :=
  let x1_next := s.x1 + s.ts * (s.k_sogi * s.wn * (input - s.x1) - s.wn * s.x2)
  let x2_next := s.x2 + s.ts * s.wn * s.x1
  let v_alpha := x1_next
  let v_beta := s.k_sogi * s.wn * x2_next
  let sin_theta := env.sin s.theta
  let cos_theta := env.cos s.theta
  let phase_error := v_alpha * sin_theta - v_beta * cos_theta
  let pi_integrator := s.pi_integrator + s.ki * phase_error * s.ts
  let delta_omega := s.kp * phase_error + pi_integrator
  let omega := s.wn + delta_omega
  let frequency := omega / (2 * f32_pi)
  let theta := wrap_two_pi (s.theta + omega * s.ts)
  { s with
    x1 := x1_next
    x2 := x2_next
    v_alpha := v_alpha
    v_beta := v_beta
    phase_error := phase_error
    pi_integrator := pi_integrator
    delta_omega := delta_omega
    omega := omega
    frequency := frequency
    theta := theta }

/-- Embedding of `SPLL::reset(&mut self)`. -/
def SPLL.reset (s : SPLL) : SPLL :=
  { s with
    pi_integrator := 0
    x1 := 0
    x2 := 0
    theta := 0
    frequency := s.nominal_frequency
    omega := s.wn
    v_alpha := 0
    v_beta := 0
    phase_error := 0
    delta_omega := 0 }

/-- Modelled from the spec: the recurrences of spec sections 4.1 and 4.2
taken verbatim (`x1' = x1 + Ts*(k*wn*(u - x1) - wn*x2)`,
`x2' = x2 + Ts*wn*x1`, `v_alpha = x1'`, `v_beta = k*wn*x2'`,
`phase_error = v_alpha*sin(theta) - v_beta*cos(theta)`,
`pi_integrator += ki*phase_error*Ts`,
`delta_omega = kp*phase_error + pi_integrator`, `omega = wn + delta_omega`,
`frequency = omega/(2*pi)`, `theta = (theta + omega*Ts) mod 2*pi` wrapped
into `[0, 2*pi)`). Used only to compare `SPLL.calculate` against the
specified recurrences. -/
def SPLL.spec_calculate (env : LibmEnv) (u : ℚ) (s : SPLL) : SPLL :=
  let x1_step := s.x1 + s.ts * (s.k_sogi * s.wn * (u - s.x1) - s.wn * s.x2)
  let x2_step := s.x2 + s.ts * s.wn * s.x1
  let v_alpha := x1_step
  let v_beta := s.k_sogi * s.wn * x2_step
  let phase_error := v_alpha * env.sin s.theta - v_beta * env.cos s.theta
  let pi_integrator := s.pi_integrator + s.ki * phase_error * s.ts
  let delta_omega := s.kp * phase_error + pi_integrator
  let omega := s.wn + delta_omega
  let frequency := omega / (2 * f32_pi)
  let theta := wrap_two_pi (s.theta + omega * s.ts)
  { s with
    x1 := x1_step
    x2 := x2_step
    v_alpha := v_alpha
    v_beta := v_beta
    phase_error := phase_error
    pi_integrator := pi_integrator
    delta_omega := delta_omega
    omega := omega
    frequency := frequency
    theta := theta }

/-- Embedding of `enum FaultType` from `src/system/on_grid.rs`. -/
inductive FaultType where
  | GridOverVoltage
  | GridUnderVoltage
  | GridFrequencyError
  | PVOverVoltage
  | PVUnderVoltage
  | OverCurrent
  | Islanding
  | GridStartupFault
deriving DecidableEq

/-- Embedding of `enum InverterState` from `src/system/on_grid.rs`. -/
inductive InverterState where
  | Idle
  | Startup
  | PLLSync
  | PowerFlow
  | Fault (fault : FaultType)
deriving DecidableEq

/-- Embedding of `struct InverterConfig`. -/
structure InverterConfig where
  grid_voltage_nominal : ℚ
  grid_frequency_nominal : ℚ
  max_output_current : ℚ
  pv_voltage_max : ℚ
  pv_voltage_min : ℚ
  grid_voltage_tolerance : ℚ
  grid_frequency_tolerance : ℚ
  sample_time : ℚ
  mppt_period : ℚ
  pll_settling_time : ℚ
deriving DecidableEq

/-- Embedding of `impl Default for InverterConfig`. -/
def InverterConfig.default : InverterConfig :=
  { grid_voltage_nominal := 230
    grid_frequency_nominal := 50
    max_output_current := 20
    pv_voltage_max := 45
    pv_voltage_min := 15
    grid_voltage_tolerance := 0.1
    grid_frequency_tolerance := 1
    sample_time := 0.0001
    mppt_period := 0.1
    pll_settling_time := 0.5 }

/-- Embedding of `struct Measurements`. -/
structure Measurements where
  pv_voltage : ℚ
  pv_current : ℚ
  grid_voltage : ℚ
  output_current : ℚ
deriving DecidableEq

/-- Embedding of `impl Default for Measurements`. -/
def Measurements.default : Measurements :=
  { pv_voltage := 0, pv_current := 0, grid_voltage := 0, output_current := 0 }

/-- Embedding of `struct ControlOutputs`. -/
structure ControlOutputs where
  duty_cycle : ℚ
  grid_relay : Bool
  led_power : Bool
  led_fault : Bool
deriving DecidableEq

/-- Embedding of `impl Default for ControlOutputs`. -/
def ControlOutputs.default : ControlOutputs :=
  { duty_cycle := 0, grid_relay := false, led_power := false, led_fault := false }

/-- Exact rational value of the `f32` constant `f32::MAX`. -/
def f32_max : ℚ := (2 ^ 24 - 1) * 2 ^ 104

/-- Embedding of `struct ControllerPI` from `src/control/cntl_pi.rs`. -/
structure ControllerPI where
  ref_input : ℚ
  fdbk : ℚ
  out : ℚ
  kp : ℚ
  ki : ℚ
  u_max : ℚ
  u_min : ℚ
  up : ℚ
  ui : ℚ
  v1 : ℚ
  i1 : ℚ
  w1 : ℚ
deriving DecidableEq

/-- Embedding of `impl Default for ControllerPI` (`f32::MIN = -f32::MAX`). -/
def ControllerPI.default : ControllerPI :=
  { ref_input := 0, fdbk := 0, out := 0, kp := 0.2, ki := 0.1
    u_max := f32_max, u_min := -f32_max
    up := 0, ui := 0, v1 := 0, i1 := 0, w1 := 0 }

/-- Embedding of `ControllerPI::new()`. -/
def ControllerPI.new : ControllerPI := ControllerPI.default

/-- Embedding of `ControllerPI::set_gains`. -/
def ControllerPI.set_gains (kp ki : ℚ) (c : ControllerPI) : ControllerPI :=
  { c with kp := kp, ki := ki }

/-- Embedding of `ControllerPI::set_limits`. -/
def ControllerPI.set_limits (u_min u_max : ℚ) (c : ControllerPI) : ControllerPI :=
  { c with u_min := u_min, u_max := u_max }

/-- Embedding of `ControllerPI::calculate(&mut self, ref_input, fdbk) -> f32`:
returns the updated controller together with the returned output. -/
def ControllerPI.calculate (ref_input fdbk : ℚ) (c : ControllerPI) : ControllerPI × ℚ :=
  let c := { c with ref_input := ref_input, fdbk := fdbk }
  let error := c.ref_input - c.fdbk
  let up := c.kp * error
  let ui := c.i1 + c.ki * error + c.w1
  let v1 := up + ui
  let out := max (min v1 c.u_max) c.u_min
  let w1 := out - v1
  let i1 := ui
  ({ c with up := up, ui := ui, v1 := v1, out := out, w1 := w1, i1 := i1 }, out)

/-- Embedding of `ControllerPI::reset`. -/
def ControllerPI.reset (c : ControllerPI) : ControllerPI :=
  { c with up := 0, ui := 0, v1 := 0, i1 := 0, w1 := 0, out := 0 }

/-- Embedding of `enum VMPPAction` from `src/mppt/perturb_and_observe.rs`. -/
inductive VMPPAction where
  | INCREMENT
  | DECREMENT
deriving DecidableEq

/-- Embedding of `struct MPPT` from `src/mppt/perturb_and_observe.rs`. -/
structure MPPT where
  pv_i : ℚ
  pv_v : ℚ
  pv_v_prev : ℚ
  pv_power : ℚ
  pv_power_prev : ℚ
  delta_pv_power : ℚ
  delta_p_min : ℚ
  mppt_v_out_action : VMPPAction
  mppt_v_out_max : ℚ
  mppt_v_out_min : ℚ
  step_size : ℚ
  mppt_v_out : ℚ
  mppt_enable : Bool
  mppt_first : Bool
deriving DecidableEq

/-- Embedding of `MPPT::new()`. -/
def MPPT.new : MPPT :=
  { pv_i := 0, pv_v := 0, pv_v_prev := 0, pv_power := 0, pv_power_prev := 0
    delta_pv_power := 0, delta_p_min := 0
    mppt_v_out_action := VMPPAction.INCREMENT
    mppt_v_out_max := 0, mppt_v_out_min := 0, step_size := 0, mppt_v_out := 0
    mppt_enable := true, mppt_first := true }

/-- Embedding of `MPPT::set_mppt_v_out_max`. -/
def MPPT.set_mppt_v_out_max (value : ℚ) (m : MPPT) : MPPT :=
  { m with mppt_v_out_max := value }

/-- Embedding of `MPPT::set_mppt_v_out_min`. -/
def MPPT.set_mppt_v_out_min (value : ℚ) (m : MPPT) : MPPT :=
  { m with mppt_v_out_min := value }

/-- Embedding of `MPPT::set_step_size`. -/
def MPPT.set_step_size (value : ℚ) (m : MPPT) : MPPT :=
  { m with step_size := value }

/-- Embedding of `MPPT::get_mppt_v_out`. -/
def MPPT.get_mppt_v_out (m : MPPT) : ℚ := m.mppt_v_out

/-- Embedding of `MPPT::calculate(&mut self, pv_i, pv_v)` (perturb and
observe step). -/
def MPPT.calculate (pv_i pv_v : ℚ) (m : MPPT) : MPPT :=
  if m.mppt_first then
    { m with pv_i := pv_i, pv_v := pv_v, pv_power := pv_i * pv_v
             pv_v_prev := pv_v, pv_power_prev := pv_i * pv_v, mppt_first := false }
  else
    let m := { m with pv_i := pv_i, pv_v := pv_v }
    let m := { m with pv_power := m.pv_i * m.pv_v }
    let delta_pv_power := m.pv_power - m.pv_power_prev
    let m :=
      if m.delta_p_min < delta_pv_power then
        let m :=
          if m.pv_v_prev < m.pv_v then { m with mppt_v_out_action := VMPPAction.INCREMENT }
          else { m with mppt_v_out_action := VMPPAction.DECREMENT }
        match m.mppt_v_out_action with
        | VMPPAction.INCREMENT =>
          if m.mppt_v_out_max < m.mppt_v_out + m.step_size then
            { m with mppt_v_out := m.mppt_v_out_max }
          else
            { m with mppt_v_out := m.mppt_v_out + m.step_size }
        | VMPPAction.DECREMENT =>
          if m.mppt_v_out - m.step_size < m.mppt_v_out_min then
            { m with mppt_v_out := m.mppt_v_out_min }
          else
            { m with mppt_v_out := m.mppt_v_out - m.step_size }
      else m
    { m with pv_v_prev := m.pv_v, pv_power_prev := m.pv_power }

/-- Embedding of `struct GridTieInverter` from `src/system/on_grid.rs`. The
`u32` counters are embedded as `ℕ` (they never approach `2^32` in any claim
considered here). -/
structure GridTieInverter where
  config : InverterConfig
  state : InverterState
  state_timer : ℚ
  mppt : MPPT
  pll : SPLL
  current_controller : ControllerPI
  measurements : Measurements
  grid_voltage_peak : ℚ
  grid_frequency : ℚ
  current_reference : ℚ
  voltage_reference : ℚ
  power_limit : ℚ
  time_elapsed : ℚ
  mppt_timer : ℚ
  startup_counter : ℕ
  fault_counter : ℕ
  grid_voltage_ok : Bool
  grid_frequency_ok : Bool
  pv_voltage_ok : Bool
  anti_islanding_ok : Bool
deriving DecidableEq

/-- Embedding of `GridTieInverter::new(config)`. -/
def GridTieInverter.new (config : InverterConfig) : GridTieInverter :=
  let mppt := MPPT.set_mppt_v_out_min config.pv_voltage_min
    (MPPT.set_mppt_v_out_max config.pv_voltage_max (MPPT.set_step_size 0.5 MPPT.new))
  let pll := SPLL.new config.grid_frequency_nominal (1 / config.sample_time)
  let current_controller := ControllerPI.set_limits 0 0.95
    (ControllerPI.set_gains 0.5 100 ControllerPI.new)
  { config := config
    state := InverterState.Idle
    state_timer := 0
    mppt := mppt
    pll := pll
    current_controller := current_controller
    measurements := Measurements.default
    grid_voltage_peak := 0
    grid_frequency := 0
    current_reference := 0
    voltage_reference := 0
    power_limit := 0
    time_elapsed := 0
    mppt_timer := 0
    startup_counter := 0
    fault_counter := 0
    grid_voltage_ok := false
    grid_frequency_ok := false
    pv_voltage_ok := false
    anti_islanding_ok := true }

/-- Embedding of `GridTieInverter::get_state`. -/
def GridTieInverter.get_state (s : GridTieInverter) : InverterState := s.state

/-- Embedding of `GridTieInverter::get_grid_frequency`. -/
def GridTieInverter.get_grid_frequency (s : GridTieInverter) : ℚ := s.grid_frequency

/-- Embedding of `GridTieInverter::get_power`. -/
def GridTieInverter.get_power (s : GridTieInverter) : ℚ :=
  s.measurements.pv_voltage * s.measurements.pv_current

/-- First stage of `GridTieInverter::update`: store the measurements and
advance the three timers by the sample period. -/
def GridTieInverter.ingest (m : Measurements) (s : GridTieInverter) : GridTieInverter :=
  { s with measurements := m
           time_elapsed := s.time_elapsed + s.config.sample_time
           state_timer := s.state_timer + s.config.sample_time
           mppt_timer := s.mppt_timer + s.config.sample_time }

/-- Flag-recomputation part of `GridTieInverter::check_protections`
(the four unconditional assignments of the protection flags). -/
def GridTieInverter.update_flags (s : GridTieInverter) : GridTieInverter :=
  let grid_v_rms := s.grid_voltage_peak / f32_sqrt2
  let v_min := s.config.grid_voltage_nominal * (1 - s.config.grid_voltage_tolerance)
  let v_max := s.config.grid_voltage_nominal * (1 + s.config.grid_voltage_tolerance)
  let f_min := s.config.grid_frequency_nominal - s.config.grid_frequency_tolerance
  let f_max := s.config.grid_frequency_nominal + s.config.grid_frequency_tolerance
  { s with
    grid_voltage_ok := decide (v_min ≤ grid_v_rms ∧ grid_v_rms ≤ v_max)
    grid_frequency_ok := decide (f_min ≤ s.grid_frequency ∧ s.grid_frequency ≤ f_max)
    pv_voltage_ok := decide (s.config.pv_voltage_min ≤ s.measurements.pv_voltage ∧
      s.measurements.pv_voltage ≤ s.config.pv_voltage_max)
    anti_islanding_ok := decide (50 < s.grid_voltage_peak) }

/-- Embedding of `GridTieInverter::transition_to_state`. -/
def GridTieInverter.transition_to_state (s : GridTieInverter)
    (new_state : InverterState) : GridTieInverter :=
  { s with state := new_state, state_timer := 0 }

/-- Embedding of `GridTieInverter::transition_to_fault`. -/
def GridTieInverter.transition_to_fault (s : GridTieInverter)
    (fault_type : FaultType) : GridTieInverter :=
  { s with state := InverterState.Fault fault_type, state_timer := 0
           fault_counter := s.fault_counter + 1 }

/-- Embedding of `GridTieInverter::check_protections`: recompute the four
protection flags, then (only when the current state is `PowerFlow`) enter
the matching `Fault` state following the nested if-else priority chain of
the source. -/
def GridTieInverter.check_protections (s : GridTieInverter) : GridTieInverter :=
  let s := s.update_flags
  if s.state = InverterState.PowerFlow then
    let grid_v_rms := s.grid_voltage_peak / f32_sqrt2
    let v_max := s.config.grid_voltage_nominal * (1 + s.config.grid_voltage_tolerance)
    if !s.grid_voltage_ok then
      if v_max < grid_v_rms then s.transition_to_fault FaultType.GridOverVoltage
      else s.transition_to_fault FaultType.GridUnderVoltage
    else if !s.grid_frequency_ok then
      s.transition_to_fault FaultType.GridFrequencyError
    else if !s.pv_voltage_ok then
      if s.config.pv_voltage_max < s.measurements.pv_voltage then
        s.transition_to_fault FaultType.PVOverVoltage
      else s.transition_to_fault FaultType.PVUnderVoltage
    else if !s.anti_islanding_ok then
      s.transition_to_fault FaultType.Islanding
    else if s.config.max_output_current < |s.measurements.output_current| then
      s.transition_to_fault FaultType.OverCurrent
    else s
  else s

/-- Embedding of `GridTieInverter::state_idle`. -/
def GridTieInverter.state_idle (s : GridTieInverter) : GridTieInverter :=
  if s.grid_voltage_ok && s.pv_voltage_ok then s.transition_to_state InverterState.Startup
  else s

/-- Embedding of `GridTieInverter::state_startup`. -/
def GridTieInverter.state_startup (s : GridTieInverter) : GridTieInverter :=
  let s : GridTieInverter :=
    if s.state_timer < 0.01 then
      { s with current_controller := s.current_controller.reset
               pll := s.pll.reset
               startup_counter := 0 }
    else s
  if s.grid_voltage_ok && s.grid_frequency_ok then
    let s : GridTieInverter := { s with startup_counter := s.startup_counter + 1 }
    if 100 < s.startup_counter then s.transition_to_state InverterState.PLLSync else s
  else
    let s : GridTieInverter := { s with startup_counter := 0 }
    if 1 < s.state_timer then s.transition_to_fault FaultType.GridStartupFault else s

/-- Embedding of `GridTieInverter::state_pll_sync`. -/
def GridTieInverter.state_pll_sync (env : LibmEnv) (s : GridTieInverter) : GridTieInverter :=
  let pll := SPLL.calculate env s.measurements.grid_voltage s.pll
  let s : GridTieInverter := { s with pll := pll, grid_frequency := pll.frequency }
  let v_alpha := s.pll.v_alpha
  let v_beta := s.pll.v_beta
  let s : GridTieInverter := { s with grid_voltage_peak := env.sqrt (v_alpha * v_alpha + v_beta * v_beta) }
  if s.config.pll_settling_time < s.state_timer then
    if s.grid_frequency_ok then
      let mppt := MPPT.calculate s.measurements.pv_current s.measurements.pv_voltage s.mppt
      let s : GridTieInverter := { s with mppt := mppt, voltage_reference := s.measurements.pv_voltage }
      s.transition_to_state InverterState.PowerFlow
    else s
  else s

/-- Embedding of `GridTieInverter::state_power_flow`. The division in
`i_peak = 2.0 * power_limit / grid_voltage_peak` is embedded as the total ℚ
division, for which `x / 0 = 0`; the `f32` special values of that unguarded
division (a signed infinity, or NaN when `power_limit = 0`, at
`grid_voltage_peak = 0`) are modelled separately and faithfully by
`power_flow_current_reference_f32` below, which settles claim C6; the two
embeddings agree whenever `grid_voltage_peak ≠ 0`
(`power_flow_current_reference_f32_agrees`). -/
def GridTieInverter.state_power_flow (env : LibmEnv) (s : GridTieInverter) : GridTieInverter :=
  let pll := SPLL.calculate env s.measurements.grid_voltage s.pll
  let s : GridTieInverter := { s with pll := pll, grid_frequency := pll.frequency }
  let v_alpha := s.pll.v_alpha
  let v_beta := s.pll.v_beta
  let s : GridTieInverter := { s with grid_voltage_peak := env.sqrt (v_alpha * v_alpha + v_beta * v_beta) }
  let s : GridTieInverter :=
    if s.config.mppt_period ≤ s.mppt_timer then
      let mppt := MPPT.calculate s.measurements.pv_current s.measurements.pv_voltage s.mppt
      { s with mppt_timer := 0, mppt := mppt, voltage_reference := mppt.get_mppt_v_out }
    else s
  let pv_power := s.measurements.pv_voltage * s.measurements.pv_current
  let s : GridTieInverter := { s with power_limit := pv_power * 0.95 }
  let phase := s.pll.theta
  let i_peak := 2 * s.power_limit / s.grid_voltage_peak
  let s : GridTieInverter := { s with current_reference := i_peak * env.sin phase }
  if s.config.max_output_current < s.current_reference then
    { s with current_reference := s.config.max_output_current }
  else if s.current_reference < -s.config.max_output_current then
    { s with current_reference := -s.config.max_output_current }
  else s

/-- The `can_recover` match inside `GridTieInverter::state_fault`. -/
def GridTieInverter.fault_can_recover (fault_type : FaultType)
    (s : GridTieInverter) : Bool :=
  match fault_type with
  | FaultType.GridOverVoltage | FaultType.GridUnderVoltage => s.grid_voltage_ok
  | FaultType.GridFrequencyError => s.grid_frequency_ok
  | FaultType.PVOverVoltage | FaultType.PVUnderVoltage => s.pv_voltage_ok
  | _ => true

/-- Embedding of `GridTieInverter::state_fault`. -/
def GridTieInverter.state_fault (s : GridTieInverter) : GridTieInverter :=
  if 2 < s.state_timer then
    match s.state with
    | InverterState.Fault fault_type =>
      if GridTieInverter.fault_can_recover fault_type s then
        s.transition_to_state InverterState.Idle
      else s
    | _ => s
  else s

/-- Embedding of `GridTieInverter::generate_outputs`: returns the (possibly
updated, since the `PowerFlow` arm runs the current controller) inverter
together with the produced `ControlOutputs`. -/
def GridTieInverter.generate_outputs (s : GridTieInverter) : GridTieInverter × ControlOutputs :=
  match s.state with
  | InverterState.Idle =>
    (s, { duty_cycle := 0, grid_relay := false, led_power := false, led_fault := false })
  | InverterState.Startup =>
    (s, { duty_cycle := 0, grid_relay := false, led_power := true, led_fault := false })
  | InverterState.PLLSync =>
    (s, { duty_cycle := 0, grid_relay := true, led_power := true, led_fault := false })
  | InverterState.PowerFlow =>
    let r := ControllerPI.calculate s.current_reference s.measurements.output_current
      s.current_controller
    let s : GridTieInverter := { s with current_controller := r.1 }
    let duty := r.2
    let feedforward :=
      if 0 < s.measurements.pv_voltage then
        |s.measurements.grid_voltage| / s.measurements.pv_voltage
      else 0
    (s, { duty_cycle := max (min (duty + feedforward) 0.95) 0
          grid_relay := true, led_power := true, led_fault := false })
  | InverterState.Fault _ =>
    (s, { duty_cycle := 0, grid_relay := false, led_power := false, led_fault := true })

/-- Dispatch of the state handlers inside `GridTieInverter::update`
(the `match self.state` block). -/
def GridTieInverter.run_state (env : LibmEnv) (s : GridTieInverter) : GridTieInverter :=
  match s.state with
  | InverterState.Idle => s.state_idle
  | InverterState.Startup => s.state_startup
  | InverterState.PLLSync => GridTieInverter.state_pll_sync env s
  | InverterState.PowerFlow => GridTieInverter.state_power_flow env s
  | InverterState.Fault _ => s.state_fault

/-- Embedding of `GridTieInverter::update(&mut self, measurements)`. -/
def GridTieInverter.update (env : LibmEnv) (m : Measurements)
    (s : GridTieInverter) : GridTieInverter × ControlOutputs :=
  GridTieInverter.generate_outputs
    (GridTieInverter.run_state env (GridTieInverter.check_protections
      (GridTieInverter.ingest m s)))

/-- The inverter state after one `update` call (first component of `update`). -/
def GridTieInverter.step (env : LibmEnv) (m : Measurements)
    (s : GridTieInverter) : GridTieInverter :=
  (GridTieInverter.update env m s).1

/-- Embedding of `GridTieInverter::reset`. -/
def GridTieInverter.reset (s : GridTieInverter) : GridTieInverter :=
  { s with state := InverterState.Idle
           state_timer := 0
           current_controller := s.current_controller.reset
           pll := s.pll.reset
           startup_counter := 0
           fault_counter := 0 }

/-- Iterated `update` along a measurement sequence: `trace env m s n` is the
inverter state after `n` update calls with measurement `m k` at tick `k+1`. -/
def GridTieInverter.trace (env : LibmEnv) (m : ℕ → Measurements)
    (s : GridTieInverter) : ℕ → GridTieInverter
  | 0 => s
  | n + 1 => GridTieInverter.step env (m n) (GridTieInverter.trace env m s n)

/-- The conjunction of the three gating protection flags, as a boolean. -/
def good_flagsB (s : GridTieInverter) : Bool :=
  s.grid_voltage_ok && s.grid_frequency_ok && s.pv_voltage_ok

/-- The conjunction of the two flags gating the `Idle → Startup` transition. -/
def vp_flagsB (s : GridTieInverter) : Bool :=
  s.grid_voltage_ok && s.pv_voltage_ok

/-- Executable fold along a run of `update` calls: returns whether the
predicate `p` held after every one of the `n` ticks, together with the final
state. Used to evaluate long concrete runs without re-evaluating prefixes. -/
def run_all (p : GridTieInverter → Bool) (env : LibmEnv) (mf : ℕ → Measurements) :
    ℕ → GridTieInverter → Bool × GridTieInverter
  | 0, s => (true, s)
  | n + 1, s =>
    let s1 := GridTieInverter.step env (mf 0) s
    let r := run_all p env (fun i => mf (i + 1)) n s1
    (p s1 && r.1, r.2)

/-- Modelled from the spec: the priority-ordered protection verdict of spec
section 4.3 (first failing condition wins, in the order grid over/under
voltage, then grid frequency, then PV over/under voltage, then islanding,
then over-current), expressed directly on the measured quantities. Used only
to compare `GridTieInverter.check_protections` against the specified order. -/
def protection_priority_verdict (s : GridTieInverter) : InverterState :=
  let grid_v_rms := s.grid_voltage_peak / f32_sqrt2
  let v_min := s.config.grid_voltage_nominal * (1 - s.config.grid_voltage_tolerance)
  let v_max := s.config.grid_voltage_nominal * (1 + s.config.grid_voltage_tolerance)
  let f_min := s.config.grid_frequency_nominal - s.config.grid_frequency_tolerance
  let f_max := s.config.grid_frequency_nominal + s.config.grid_frequency_tolerance
  if ¬(v_min ≤ grid_v_rms ∧ grid_v_rms ≤ v_max) then
    if v_max < grid_v_rms then InverterState.Fault FaultType.GridOverVoltage
    else InverterState.Fault FaultType.GridUnderVoltage
  else if ¬(f_min ≤ s.grid_frequency ∧ s.grid_frequency ≤ f_max) then
    InverterState.Fault FaultType.GridFrequencyError
  else if ¬(s.config.pv_voltage_min ≤ s.measurements.pv_voltage ∧
      s.measurements.pv_voltage ≤ s.config.pv_voltage_max) then
    if s.config.pv_voltage_max < s.measurements.pv_voltage then
      InverterState.Fault FaultType.PVOverVoltage
    else InverterState.Fault FaultType.PVUnderVoltage
  else if ¬(50 < s.grid_voltage_peak) then InverterState.Fault FaultType.Islanding
  else if s.config.max_output_current < |s.measurements.output_current| then
    InverterState.Fault FaultType.OverCurrent
  else InverterState.PowerFlow

/-- Concrete libm environment for closed executions (the claims evaluated
with it never depend on the values of the primitives). -/
def env_zero : LibmEnv := { sin := fun _ => 0, cos := fun _ => 0, sqrt := fun _ => 0 }

/-- Concrete measurement sample with a healthy PV array (30 V, 8 A). -/
def meas_good : Measurements :=
  { pv_voltage := 30, pv_current := 8, grid_voltage := 0, output_current := 0 }

/-- Configuration with a 10 ms sample period, otherwise the defaults. -/
def cfg_slow : InverterConfig := { InverterConfig.default with sample_time := 0.01 }

/-- Fresh inverter at `cfg_slow` whose cached grid peak is in the valid band
(325 V peak, about 229.8 V RMS) while the cached grid frequency estimate is
still its initial value 0 (so `grid_frequency_ok` is false). -/
def inv_c1 : GridTieInverter :=
  { GridTieInverter.new cfg_slow with grid_voltage_peak := 325 }

/-- Default configuration with a zero PLL settling time. -/
def cfg_w1 : InverterConfig := { InverterConfig.default with pll_settling_time := 0 }

/-- Fresh inverter at `cfg_w1` with cached peak and frequency in the valid
bands, so that all protection flags evaluate true on every tick. -/
def inv_w1 : GridTieInverter :=
  { GridTieInverter.new cfg_w1 with grid_voltage_peak := 325, grid_frequency := 50 }

/-- Inverter in `PowerFlow` whose cached grid peak corresponds to exactly
300 V RMS (peak = 300·√2), with every other protection condition healthy. -/
def inv_c4 : GridTieInverter :=
  { GridTieInverter.new InverterConfig.default with
    state := InverterState.PowerFlow
    grid_voltage_peak := 300 * f32_sqrt2
    grid_frequency := 50
    measurements := meas_good }

/-- Inverter latched in `Fault OverCurrent` with 3 s already spent there. -/
def inv_c5 : GridTieInverter :=
  { GridTieInverter.new InverterConfig.default with
    state := InverterState.Fault FaultType.OverCurrent
    state_timer := 3
    grid_voltage_peak := 325
    grid_frequency := 50 }

/-- Inverter re-entering `Startup` (transition just happened, so
`state_timer = 0`) with a startup counter of 101 carried over from an
earlier startup, and healthy grid conditions. -/
def inv_c9 : GridTieInverter :=
  { GridTieInverter.new InverterConfig.default with
    state := InverterState.Startup
    startup_counter := 101
    grid_voltage_peak := 325
    grid_frequency := 50 }

/-- An `f32` value as needed to model the unguarded division in
`GridTieInverter::state_power_flow`: a finite value (kept as an exact
rational), a signed infinity, or NaN. Finite arithmetic is idealized as
exact; only the IEEE 754 special cases reachable from that division are
modelled. -/
inductive F32Val where
  | fin (x : ℚ)
  | inf (positive : Bool)
  | nan
deriving DecidableEq

/-- IEEE 754 division of a finite numerator by a finite nonnegative
denominator (the shape of `2.0 * self.power_limit /
self.grid_voltage_peak`, whose denominator comes from `sqrtf`): division by
(positive) zero gives an infinity carrying the sign of the numerator,
except `0.0 / 0.0`, which gives NaN; overflow of finite results is not
modelled. -/
def f32_div (a b : ℚ) : F32Val :=
  if b = 0 then
    if a = 0 then F32Val.nan
    else F32Val.inf (decide (0 < a))
  else F32Val.fin (a / b)

/-- IEEE 754 multiplication of the division result by the finite
`sinf(phase)` sample: `NaN * s = NaN`, `(±inf) * 0.0 = NaN`, `(±inf) * s`
keeps the product sign for `s ≠ 0`, finite times finite stays exact. -/
def F32Val.mul_fin : F32Val → ℚ → F32Val
  | F32Val.fin x, s => F32Val.fin (x * s)
  | F32Val.inf p, s =>
    if s = 0 then F32Val.nan
    else F32Val.inf (p == decide (0 < s))
  | F32Val.nan, _ => F32Val.nan

/-- IEEE 754 ordered greater-than against a finite bound: false whenever
the left operand is NaN. -/
def F32Val.gt_fin : F32Val → ℚ → Bool
  | F32Val.fin x, c => decide (c < x)
  | F32Val.inf p, _ => p
  | F32Val.nan, _ => false

/-- IEEE 754 ordered less-than against a finite bound: false whenever the
left operand is NaN. -/
def F32Val.lt_fin : F32Val → ℚ → Bool
  | F32Val.fin x, c => decide (x < c)
  | F32Val.inf p, _ => !p
  | F32Val.nan, _ => false

/-- The current-reference computation of `GridTieInverter::state_power_flow`
under `f32` semantics for the unguarded division: `i_peak = (2.0 *
power_limit) / grid_voltage_peak`, `current_reference = i_peak *
sinf(phase)`, then the two clamp branches (`if current_reference >
max_output_current ... else if current_reference < -max_output_current
...`). A NaN produced by `0.0 / 0.0` (or by `(±inf) * 0.0`) fails both
ordered clamp comparisons and is therefore emitted unclamped. -/
def power_flow_current_reference_f32
    (power_limit grid_voltage_peak sin_phase max_output_current : ℚ) : F32Val :=
  let i_peak := f32_div (2 * power_limit) grid_voltage_peak
  let current_reference := F32Val.mul_fin i_peak sin_phase
  if F32Val.gt_fin current_reference max_output_current then
    F32Val.fin max_output_current
  else if F32Val.lt_fin current_reference (-max_output_current) then
    F32Val.fin (-max_output_current)
  else current_reference

/-- Inverter in `PowerFlow` with zero measurements: during the next
`state_power_flow` run the recomputed peak is `sqrt 0` and the PV power is
0, so the handler divides `0.0` by `0.0`. -/
def inv_c6 : GridTieInverter :=
  { GridTieInverter.new InverterConfig.default with state := InverterState.PowerFlow }

theorem TWO_PI_pos : (0 : ℚ) < TWO_PI := by norm_num [TWO_PI, f32_pi]

theorem wrap_two_pi_mem (t : ℚ) : 0 ≤ wrap_two_pi t ∧ wrap_two_pi t < TWO_PI := by
  have h2 : (0 : ℚ) < TWO_PI := TWO_PI_pos
  have hfr : wrap_two_pi t = TWO_PI * Int.fract (t / TWO_PI) := by
    rw [wrap_two_pi, Int.fract, mul_sub, mul_div_cancel₀ _ h2.ne']
  constructor
  · rw [hfr]
    exact mul_nonneg h2.le (Int.fract_nonneg _)
  · rw [hfr]
    calc TWO_PI * Int.fract (t / TWO_PI) < TWO_PI * 1 :=
          (mul_lt_mul_left h2).mpr (Int.fract_lt_one _)
      _ = TWO_PI := mul_one _

/-- Claim C2: after every call to `SPLL::calculate` (for any libm
implementation, any input and any starting state) and after `SPLL::reset`,
the estimated phase `theta` lies in the half-open interval `[0, 2π)`. -/
theorem spll_theta_invariant (env : LibmEnv) (u : ℚ) (s p : SPLL) :
    (0 ≤ (SPLL.calculate env u s).theta ∧ (SPLL.calculate env u s).theta < TWO_PI) ∧
    (0 ≤ (SPLL.reset p).theta ∧ (SPLL.reset p).theta < TWO_PI) := by
  refine ⟨?_, ?_⟩
  · have h := wrap_two_pi_mem (s.theta +
      (s.wn + (s.kp * ((s.x1 + s.ts * (s.k_sogi * s.wn * (u - s.x1) - s.wn * s.x2)) * env.sin s.theta -
          s.k_sogi * s.wn * (s.x2 + s.ts * s.wn * s.x1) * env.cos s.theta) +
        (s.pi_integrator + s.ki * ((s.x1 + s.ts * (s.k_sogi * s.wn * (u - s.x1) - s.wn * s.x2)) * env.sin s.theta -
          s.k_sogi * s.wn * (s.x2 + s.ts * s.wn * s.x1) * env.cos s.theta) * s.ts))) * s.ts)
    exact h
  · exact ⟨le_refl 0, TWO_PI_pos⟩

/-- Claim C3: one call to `SPLL::calculate(u)` updates the state exactly per
the recurrences specified in spec sections 4.1 and 4.2 (SOGI difference
equations, phase error, PI integrator, frequency and wrapped phase). -/
theorem spll_calculate_follows_spec (env : LibmEnv) (u : ℚ) (s : SPLL) :
    SPLL.calculate env u s = SPLL.spec_calculate env u s := rfl

/-- Claim C7 (counterexample): on a freshly constructed inverter (default
configuration, a reachable state), `reset()` does not make
`get_grid_frequency()` equal to `grid_frequency_nominal`: the cached
estimate stays at its initial value 0 while the nominal frequency is 50. -/
theorem c7_reset_frequency_counterexample :
    GridTieInverter.get_grid_frequency
        (GridTieInverter.reset (GridTieInverter.new InverterConfig.default))
      ≠ InverterConfig.default.grid_frequency_nominal := by
  with_unfolding_all decide

/-- Claim C7 (amended): `reset()` from any state forces `Idle`, zeroes
`state_timer`, `startup_counter` and `fault_counter`, restores the internal
PLL frequency estimate to nominal, and is idempotent; however the cached
`grid_frequency` field returned by `get_grid_frequency()` is left unchanged
by `reset()` (it is not restored to `grid_frequency_nominal`). -/
theorem c7_reset_amended (s : GridTieInverter) :
    (GridTieInverter.reset s).get_state = InverterState.Idle ∧
    (GridTieInverter.reset s).state_timer = 0 ∧
    (GridTieInverter.reset s).startup_counter = 0 ∧
    (GridTieInverter.reset s).fault_counter = 0 ∧
    (GridTieInverter.reset s).pll.frequency = s.pll.nominal_frequency ∧
    (GridTieInverter.reset s).get_grid_frequency = s.get_grid_frequency ∧
    GridTieInverter.reset (GridTieInverter.reset s) = GridTieInverter.reset s :=
  ⟨rfl, rfl, rfl, rfl, rfl, rfl, rfl⟩

/-- Claim C8: the generated `ControlOutputs` follow the state table: `Idle`
gives duty 0 and open relay; `Startup` additionally lights the power LED;
`PLLSync` closes the relay with duty 0; `Fault(_)` gives duty 0, open relay
and the fault LED; `PowerFlow` emits the current-controller output plus the
feedforward `|grid_voltage|/pv_voltage` (0 when `pv_voltage ≤ 0`), clamped
into `[0, 0.95]`, with the relay closed and the power LED on. -/
theorem c8_outputs_table (s : GridTieInverter) :
    (GridTieInverter.generate_outputs s).2 =
      match s.state with
      | InverterState.Idle =>
        { duty_cycle := 0, grid_relay := false, led_power := false, led_fault := false }
      | InverterState.Startup =>
        { duty_cycle := 0, grid_relay := false, led_power := true, led_fault := false }
      | InverterState.PLLSync =>
        { duty_cycle := 0, grid_relay := true, led_power := true, led_fault := false }
      | InverterState.PowerFlow =>
        { duty_cycle := max 0 (min
            ((ControllerPI.calculate s.current_reference s.measurements.output_current
                s.current_controller).2 +
              (if 0 < s.measurements.pv_voltage then
                |s.measurements.grid_voltage| / s.measurements.pv_voltage
              else 0)) 0.95)
          grid_relay := true, led_power := true, led_fault := false }
      | InverterState.Fault _ =>
        { duty_cycle := 0, grid_relay := false, led_power := false, led_fault := true } := by
  cases hs : s.state <;>
    simp only [GridTieInverter.generate_outputs, hs, max_comm]

theorem power_flow_current_reference_f32_agrees
    (pl pk sp mx : ℚ) (hpk : pk ≠ 0) :
    power_flow_current_reference_f32 pl pk sp mx
      = F32Val.fin (if mx < 2 * pl / pk * sp then mx
          else if 2 * pl / pk * sp < -mx then -mx else 2 * pl / pk * sp) := by
  unfold power_flow_current_reference_f32 f32_div
  rw [if_neg hpk]
  simp only [F32Val.mul_fin, F32Val.gt_fin, F32Val.lt_fin, decide_eq_true_eq]
  split_ifs <;> simp_all

theorem power_flow_current_reference_f32_bounded
    (pl pk sp mx : ℚ) (hpk : pk ≠ 0) (hmx : 0 ≤ mx) :
    ∃ x : ℚ, power_flow_current_reference_f32 pl pk sp mx = F32Val.fin x ∧ |x| ≤ mx := by
  rw [power_flow_current_reference_f32_agrees pl pk sp mx hpk]
  refine ⟨_, rfl, ?_⟩
  split_ifs with h1 h2 <;> rw [abs_le] <;> constructor <;> linarith

/-- Claim C6 (code bug): the claim is the spec's intent (its sections 7 and
9 call the unguarded division a latent bug and require a guard), but the
code violates it at the zero case the claim explicitly includes. With
`power_limit = 0` and `grid_voltage_peak = 0` the handler computes
`i_peak = 0.0 / 0.0 = NaN`; NaN times any `sinf(phase)` stays NaN, NaN
fails both ordered clamp comparisons, and the emitted `current_reference`
is NaN — not a finite value within `±max_output_current` — for every phase
sample and every current limit. The ℚ-valued handler collapses this path
to 0 (second conjunct), which is why the bound is provable only in the
totalized model; `power_flow_current_reference_f32_bounded` shows the
clamp does bound the reference whenever the divisor is nonzero. -/
theorem c6_current_clamp_code_bug :
    (∀ sin_phase max_output_current : ℚ,
      power_flow_current_reference_f32 0 0 sin_phase max_output_current = F32Val.nan ∧
      ∀ x : ℚ,
        power_flow_current_reference_f32 0 0 sin_phase max_output_current ≠ F32Val.fin x) ∧
    (GridTieInverter.state_power_flow env_zero inv_c6).current_reference = 0 := by
  constructor
  · intro sp mx
    have hnan : power_flow_current_reference_f32 0 0 sp mx = F32Val.nan := by
      unfold power_flow_current_reference_f32 f32_div
      norm_num [F32Val.mul_fin, F32Val.gt_fin, F32Val.lt_fin]
    exact ⟨hnan, fun x h => by rw [hnan] at h; exact F32Val.noConfusion h⟩
  · with_unfolding_all decide

theorem update_flags_state (s : GridTieInverter) :
    (GridTieInverter.update_flags s).state = s.state := rfl

theorem check_protections_of_ne (s : GridTieInverter)
    (h : s.state ≠ InverterState.PowerFlow) :
    GridTieInverter.check_protections s = GridTieInverter.update_flags s := by
  unfold GridTieInverter.check_protections
  rw [if_neg]
  rw [update_flags_state]
  exact h

theorem generate_outputs_fst_state (s : GridTieInverter) :
    ((GridTieInverter.generate_outputs s).1).state = s.state := by
  cases hs : s.state <;> simp [GridTieInverter.generate_outputs, hs]

theorem generate_outputs_fst_of_ne (s : GridTieInverter)
    (h : s.state ≠ InverterState.PowerFlow) :
    (GridTieInverter.generate_outputs s).1 = s := by
  cases hs : s.state <;> simp_all [GridTieInverter.generate_outputs]

theorem run_state_of_fault (env : LibmEnv) (s : GridTieInverter) (k : FaultType)
    (h : s.state = InverterState.Fault k) :
    GridTieInverter.run_state env s = GridTieInverter.state_fault s := by
  simp [GridTieInverter.run_state, h]

/-- Claim C5: faults are latched. From any `Fault(kind)` state, one `update`
keeps the state at `Fault(kind)` whenever the advanced `state_timer` is at
most 2 s, and otherwise moves it to `Idle` exactly when the fault-specific
recovery condition (freshly recomputed this tick) holds: voltage faults need
`grid_voltage_ok`, the frequency fault needs `grid_frequency_ok`, PV faults
need `pv_voltage_ok`, and every other kind recovers unconditionally. -/
theorem c5_fault_latch (env : LibmEnv) (m : Measurements) (s : GridTieInverter)
    (k : FaultType) (h : s.state = InverterState.Fault k) :
    (GridTieInverter.step env m s).state =
      if 2 < s.state_timer + s.config.sample_time ∧
          GridTieInverter.fault_can_recover k
            (GridTieInverter.update_flags (GridTieInverter.ingest m s)) = true
      then InverterState.Idle else InverterState.Fault k := by
  have hu : (GridTieInverter.update_flags (GridTieInverter.ingest m s)).state
      = InverterState.Fault k := h
  have ht : (GridTieInverter.update_flags (GridTieInverter.ingest m s)).state_timer
      = s.state_timer + s.config.sample_time := rfl
  unfold GridTieInverter.step GridTieInverter.update
  rw [check_protections_of_ne _
    (by intro hc; have hc2 : s.state = InverterState.PowerFlow := hc; rw [h] at hc2; cases hc2)]
  rw [run_state_of_fault env _ k hu, generate_outputs_fst_state]
  unfold GridTieInverter.state_fault
  rw [ht, hu]
  by_cases h2 : 2 < s.state_timer + s.config.sample_time
  · simp only [if_pos h2]
    by_cases hr : GridTieInverter.fault_can_recover k
        (GridTieInverter.update_flags (GridTieInverter.ingest m s)) = true
    · simp [hr, h2, GridTieInverter.transition_to_state]
    · simp only [Bool.not_eq_true] at hr
      simp [hr, h2, hu]
  · simp [h2, hu]

/-- Claim C5 witness: the latch law instantiated on a concrete inverter
latched in `Fault OverCurrent` for 3 s (it recovers to `Idle`). -/
theorem c5_fault_latch_witness :
    inv_c5.state = InverterState.Fault FaultType.OverCurrent ∧
    (GridTieInverter.step env_zero meas_good inv_c5).state =
      (if 2 < inv_c5.state_timer + inv_c5.config.sample_time ∧
          GridTieInverter.fault_can_recover FaultType.OverCurrent
            (GridTieInverter.update_flags (GridTieInverter.ingest meas_good inv_c5)) = true
        then InverterState.Idle else InverterState.Fault FaultType.OverCurrent) :=
  ⟨rfl, c5_fault_latch env_zero meas_good inv_c5 FaultType.OverCurrent rfl⟩

/-- Claim C4: in `PowerFlow`, fault classification follows the fixed
priority order grid over/under-voltage, then grid frequency, then PV
over/under-voltage, then islanding, then over-current (first failing
condition wins); concretely, a cached grid peak corresponding to 300 V RMS
under the default configuration (nominal 230 V, tolerance 0.1) makes the
next `update` enter `Fault GridOverVoltage` with `duty_cycle = 0` and
`grid_relay = false` in that same update. -/
theorem c4_fault_priority :
    (∀ s : GridTieInverter, s.state = InverterState.PowerFlow →
      (GridTieInverter.check_protections s).state = protection_priority_verdict s) ∧
    ((GridTieInverter.step env_zero meas_good inv_c4).state
        = InverterState.Fault FaultType.GridOverVoltage ∧
      (GridTieInverter.update env_zero meas_good inv_c4).2.duty_cycle = 0 ∧
      (GridTieInverter.update env_zero meas_good inv_c4).2.grid_relay = false) := by
  constructor
  · intro s hs
    have hstate : (GridTieInverter.update_flags s).state = InverterState.PowerFlow := hs
    unfold GridTieInverter.check_protections protection_priority_verdict
    rw [if_pos hstate]
    simp only [GridTieInverter.update_flags, GridTieInverter.transition_to_fault]
    split_ifs <;> simp_all
  · refine ⟨?_, ?_, ?_⟩ <;> with_unfolding_all decide

/-- Claim C4 witness: the priority characterization instantiated on the
concrete 300 V RMS `PowerFlow` state. -/
theorem c4_fault_priority_witness :
    inv_c4.state = InverterState.PowerFlow ∧
    (GridTieInverter.check_protections inv_c4).state = protection_priority_verdict inv_c4 :=
  ⟨rfl, c4_fault_priority.1 inv_c4 rfl⟩

theorem ingest_state (m : Measurements) (s : GridTieInverter) :
    (GridTieInverter.ingest m s).state = s.state := rfl

theorem update_flags_state_timer (s : GridTieInverter) :
    (GridTieInverter.update_flags s).state_timer = s.state_timer := rfl

theorem update_flags_startup_counter (s : GridTieInverter) :
    (GridTieInverter.update_flags s).startup_counter = s.startup_counter := rfl

theorem update_flags_config (s : GridTieInverter) :
    (GridTieInverter.update_flags s).config = s.config := rfl

theorem ingest_timer_eq (m : Measurements) (s : GridTieInverter) :
    (GridTieInverter.update_flags (GridTieInverter.ingest m s)).state_timer
      = s.state_timer + s.config.sample_time := rfl

theorem ingest_counter_eq (m : Measurements) (s : GridTieInverter) :
    (GridTieInverter.update_flags (GridTieInverter.ingest m s)).startup_counter
      = s.startup_counter := rfl

theorem ingest_config_eq (m : Measurements) (s : GridTieInverter) :
    (GridTieInverter.update_flags (GridTieInverter.ingest m s)).config = s.config := rfl

theorem generate_outputs_fst_fields (s : GridTieInverter) :
    ((GridTieInverter.generate_outputs s).1).state = s.state ∧
    ((GridTieInverter.generate_outputs s).1).state_timer = s.state_timer ∧
    ((GridTieInverter.generate_outputs s).1).startup_counter = s.startup_counter ∧
    ((GridTieInverter.generate_outputs s).1).fault_counter = s.fault_counter ∧
    ((GridTieInverter.generate_outputs s).1).config = s.config ∧
    good_flagsB ((GridTieInverter.generate_outputs s).1) = good_flagsB s := by
  cases hs : s.state <;> simp [GridTieInverter.generate_outputs, hs, good_flagsB]

theorem state_idle_fields (s : GridTieInverter) :
    good_flagsB s.state_idle = good_flagsB s ∧
    s.state_idle.config = s.config ∧
    s.state_idle.startup_counter = s.startup_counter ∧
    s.state_idle.fault_counter = s.fault_counter := by
  unfold GridTieInverter.state_idle GridTieInverter.transition_to_state
  split_ifs <;> simp [good_flagsB]

theorem state_startup_fields (s : GridTieInverter) :
    good_flagsB s.state_startup = good_flagsB s ∧
    s.state_startup.config = s.config ∧
    s.fault_counter ≤ s.state_startup.fault_counter := by
  unfold GridTieInverter.state_startup GridTieInverter.transition_to_state
    GridTieInverter.transition_to_fault
  dsimp only
  split_ifs <;> simp_all [good_flagsB] <;> (try split_ifs) <;> simp_all [good_flagsB]

theorem state_pll_sync_fields (env : LibmEnv) (s : GridTieInverter) :
    good_flagsB (GridTieInverter.state_pll_sync env s) = good_flagsB s ∧
    (GridTieInverter.state_pll_sync env s).config = s.config ∧
    (GridTieInverter.state_pll_sync env s).startup_counter = s.startup_counter ∧
    (GridTieInverter.state_pll_sync env s).fault_counter = s.fault_counter := by
  unfold GridTieInverter.state_pll_sync GridTieInverter.transition_to_state
  dsimp only
  split_ifs <;> simp [good_flagsB]

theorem state_power_flow_fields (env : LibmEnv) (s : GridTieInverter) :
    good_flagsB (GridTieInverter.state_power_flow env s) = good_flagsB s ∧
    (GridTieInverter.state_power_flow env s).config = s.config ∧
    (GridTieInverter.state_power_flow env s).startup_counter = s.startup_counter ∧
    (GridTieInverter.state_power_flow env s).fault_counter = s.fault_counter := by
  unfold GridTieInverter.state_power_flow
  dsimp only
  split_ifs <;> simp [good_flagsB]

theorem state_fault_fields (s : GridTieInverter) :
    good_flagsB s.state_fault = good_flagsB s ∧
    s.state_fault.config = s.config ∧
    s.state_fault.startup_counter = s.startup_counter ∧
    s.state_fault.fault_counter = s.fault_counter := by
  unfold GridTieInverter.state_fault GridTieInverter.transition_to_state
  split_ifs
  · cases hs : s.state <;> simp [good_flagsB] <;> (try split_ifs) <;> simp [good_flagsB]
  · simp [good_flagsB]

theorem run_state_fields (env : LibmEnv) (s : GridTieInverter) :
    good_flagsB (GridTieInverter.run_state env s) = good_flagsB s ∧
    (GridTieInverter.run_state env s).config = s.config ∧
    s.fault_counter ≤ (GridTieInverter.run_state env s).fault_counter := by
  unfold GridTieInverter.run_state
  cases hs : s.state
  · exact ⟨(state_idle_fields s).1, (state_idle_fields s).2.1,
      le_of_eq (state_idle_fields s).2.2.2.symm⟩
  · exact ⟨(state_startup_fields s).1, (state_startup_fields s).2.1,
      (state_startup_fields s).2.2⟩
  · exact ⟨(state_pll_sync_fields env s).1, (state_pll_sync_fields env s).2.1,
      le_of_eq (state_pll_sync_fields env s).2.2.2.symm⟩
  · exact ⟨(state_power_flow_fields env s).1, (state_power_flow_fields env s).2.1,
      le_of_eq (state_power_flow_fields env s).2.2.2.symm⟩
  · exact ⟨(state_fault_fields s).1, (state_fault_fields s).2.1,
      le_of_eq (state_fault_fields s).2.2.2.symm⟩

theorem check_protections_fault_counter_le (s : GridTieInverter) :
    s.fault_counter ≤ (GridTieInverter.check_protections s).fault_counter := by
  unfold GridTieInverter.check_protections
  dsimp only
  split_ifs <;>
    simp [GridTieInverter.transition_to_fault, GridTieInverter.update_flags]

theorem check_protections_config (s : GridTieInverter) :
    (GridTieInverter.check_protections s).config = s.config := by
  unfold GridTieInverter.check_protections
  dsimp only
  split_ifs <;>
    simp [GridTieInverter.transition_to_fault, GridTieInverter.update_flags]

theorem step_config (env : LibmEnv) (m : Measurements) (s : GridTieInverter) :
    (GridTieInverter.step env m s).config = s.config := by
  unfold GridTieInverter.step GridTieInverter.update
  rw [(generate_outputs_fst_fields _).2.2.2.2.1,
    (run_state_fields env _).2.1, check_protections_config]
  rfl

theorem step_fault_counter_le (env : LibmEnv) (m : Measurements) (s : GridTieInverter) :
    s.fault_counter ≤ (GridTieInverter.step env m s).fault_counter := by
  unfold GridTieInverter.step GridTieInverter.update
  rw [(generate_outputs_fst_fields _).2.2.2.1]
  calc s.fault_counter
      = (GridTieInverter.ingest m s).fault_counter := rfl
    _ ≤ (GridTieInverter.check_protections (GridTieInverter.ingest m s)).fault_counter :=
        check_protections_fault_counter_le _
    _ ≤ _ := (run_state_fields env _).2.2

theorem step_good_flags (env : LibmEnv) (m : Measurements) (s : GridTieInverter)
    (h : s.state ≠ InverterState.PowerFlow) :
    good_flagsB (GridTieInverter.step env m s)
      = good_flagsB (GridTieInverter.update_flags (GridTieInverter.ingest m s)) := by
  unfold GridTieInverter.step GridTieInverter.update
  rw [check_protections_of_ne _ (by rw [ingest_state]; exact h)]
  rw [(generate_outputs_fst_fields _).2.2.2.2.2, (run_state_fields env _).1]

/-- Claim C9 (counterexample): `startup_counter` is not monotonically
non-decreasing within a session: one `update` on a concrete inverter that
has just re-entered `Startup` with a carried-over counter of 101 (and no
intervening `reset()`) drops the counter from 101 to 1, because the
`Startup` handler itself zeroes the counter on re-entry. -/
theorem c9_startup_counter_counterexample :
    (GridTieInverter.step env_zero meas_good inv_c9).startup_counter
      < inv_c9.startup_counter := by
  with_unfolding_all decide

/-- Claim C9 (amended): `fault_counter` is monotonically non-decreasing
across `update` calls and is zeroed by `reset()`; `startup_counter` is also
zeroed by `reset()`, but it is not monotone within a session, since the
`Startup` handler zeroes it on re-entry and on ticks whose grid conditions
fail. -/
theorem c9_counters_amended (env : LibmEnv) (m : Measurements) (s : GridTieInverter) :
    s.fault_counter ≤ (GridTieInverter.step env m s).fault_counter ∧
    (GridTieInverter.reset s).startup_counter = 0 ∧
    (GridTieInverter.reset s).fault_counter = 0 :=
  ⟨step_fault_counter_le env m s, rfl, rfl⟩

theorem idle_zero_peak_step (env : LibmEnv) (m : Measurements) (s : GridTieInverter)
    (hst : s.state = InverterState.Idle) (hpk : s.grid_voltage_peak = 0)
    (h : 0 < s.config.grid_voltage_nominal * (1 - s.config.grid_voltage_tolerance)) :
    (GridTieInverter.step env m s).state = InverterState.Idle ∧
    (GridTieInverter.step env m s).grid_voltage_peak = 0 ∧
    (GridTieInverter.step env m s).config = s.config := by
  have hgv : (GridTieInverter.update_flags (GridTieInverter.ingest m s)).grid_voltage_ok
      = false := by
    unfold GridTieInverter.update_flags
    dsimp only
    rw [show (GridTieInverter.ingest m s).grid_voltage_peak = s.grid_voltage_peak from rfl, hpk]
    simp only [zero_div]
    apply decide_eq_false
    intro hc
    have hle : (GridTieInverter.ingest m s).config.grid_voltage_nominal *
        (1 - (GridTieInverter.ingest m s).config.grid_voltage_tolerance) ≤ 0 := hc.1
    have : s.config.grid_voltage_nominal * (1 - s.config.grid_voltage_tolerance) ≤ 0 := hle
    linarith
  have hidle : GridTieInverter.state_idle
      (GridTieInverter.update_flags (GridTieInverter.ingest m s))
      = GridTieInverter.update_flags (GridTieInverter.ingest m s) := by
    unfold GridTieInverter.state_idle
    rw [hgv]
    simp
  have hustate : (GridTieInverter.update_flags (GridTieInverter.ingest m s)).state
      = InverterState.Idle := hst
  have hstep : GridTieInverter.step env m s
      = GridTieInverter.update_flags (GridTieInverter.ingest m s) := by
    unfold GridTieInverter.step GridTieInverter.update
    rw [check_protections_of_ne _ (by rw [ingest_state, hst]; simp)]
    rw [show GridTieInverter.run_state env
        (GridTieInverter.update_flags (GridTieInverter.ingest m s))
        = GridTieInverter.state_idle
          (GridTieInverter.update_flags (GridTieInverter.ingest m s)) by
      simp only [GridTieInverter.run_state, hustate]]
    rw [hidle]
    exact generate_outputs_fst_of_ne _ (by rw [hustate]; simp)
  rw [hstep]
  exact ⟨hustate, hpk, rfl⟩

/-- Claim C10: with any configuration whose lower voltage bound
`grid_voltage_nominal*(1 - grid_voltage_tolerance)` is positive, a freshly
constructed inverter never leaves `Idle`, for every measurement sequence:
`grid_voltage_peak` starts at 0 and is only written by the `PLLSync` and
`PowerFlow` handlers, so `grid_voltage_ok` never becomes true and the
`Idle → Startup` guard can never fire. -/
theorem c10_fresh_idle_forever (cfg : InverterConfig) (env : LibmEnv)
    (mf : ℕ → Measurements)
    (h : 0 < cfg.grid_voltage_nominal * (1 - cfg.grid_voltage_tolerance)) (n : ℕ) :
    (GridTieInverter.trace env mf (GridTieInverter.new cfg) n).state
      = InverterState.Idle := by
  have key : ∀ k : ℕ,
      (GridTieInverter.trace env mf (GridTieInverter.new cfg) k).state = InverterState.Idle ∧
      (GridTieInverter.trace env mf (GridTieInverter.new cfg) k).grid_voltage_peak = 0 ∧
      (GridTieInverter.trace env mf (GridTieInverter.new cfg) k).config = cfg := by
    intro k
    induction k with
    | zero => exact ⟨rfl, rfl, rfl⟩
    | succ j ih =>
      obtain ⟨h1, h2, h3⟩ := ih
      have hs := idle_zero_peak_step env (mf j)
        (GridTieInverter.trace env mf (GridTieInverter.new cfg) j) h1 h2 (by rw [h3]; exact h)
      exact ⟨hs.1, hs.2.1, by
        show (GridTieInverter.step env (mf j)
          (GridTieInverter.trace env mf (GridTieInverter.new cfg) j)).config = cfg
        rw [step_config]; exact h3⟩
  exact (key n).1

/-- Claim C10 witness: a fresh inverter at the default configuration is
still `Idle` after three ticks of healthy PV measurements. -/
theorem c10_fresh_idle_forever_witness :
    0 < InverterConfig.default.grid_voltage_nominal *
        (1 - InverterConfig.default.grid_voltage_tolerance) ∧
    (GridTieInverter.trace env_zero (fun _ => meas_good)
        (GridTieInverter.new InverterConfig.default) 3).state = InverterState.Idle :=
  ⟨by with_unfolding_all decide,
   c10_fresh_idle_forever InverterConfig.default env_zero (fun _ => meas_good)
     (by with_unfolding_all decide) 3⟩

theorem trace_succ_shift (env : LibmEnv) (mf : ℕ → Measurements)
    (s : GridTieInverter) (n : ℕ) :
    GridTieInverter.trace env mf s (n + 1)
      = GridTieInverter.trace env (fun i => mf (i + 1))
          (GridTieInverter.step env (mf 0) s) n := by
  induction n with
  | zero => rfl
  | succ k ih =>
    show GridTieInverter.step env (mf (k + 1)) (GridTieInverter.trace env mf s (k + 1)) = _
    rw [ih]
    rfl

theorem trace_succ (env : LibmEnv) (mf : ℕ → Measurements) (s : GridTieInverter)
    (n : ℕ) :
    GridTieInverter.trace env mf s (n + 1)
      = GridTieInverter.step env (mf n) (GridTieInverter.trace env mf s n) := rfl

theorem run_all_snd (p : GridTieInverter → Bool) (env : LibmEnv) :
    ∀ (n : ℕ) (mf : ℕ → Measurements) (s : GridTieInverter),
      (run_all p env mf n s).2 = GridTieInverter.trace env mf s n := by
  intro n
  induction n with
  | zero => intro mf s; rfl
  | succ k ih =>
    intro mf s
    rw [run_all]
    dsimp only
    rw [ih]
    rw [← trace_succ_shift]

theorem run_all_fst (p : GridTieInverter → Bool) (env : LibmEnv) :
    ∀ (n : ℕ) (mf : ℕ → Measurements) (s : GridTieInverter),
      (run_all p env mf n s).1 = true →
      ∀ k, 1 ≤ k → k ≤ n → p (GridTieInverter.trace env mf s k) = true := by
  intro n
  induction n with
  | zero => intro mf s _ k h1 h2; omega
  | succ j ih =>
    intro mf s h k h1 h2
    rw [run_all] at h
    dsimp only at h
    rw [Bool.and_eq_true] at h
    cases k with
    | zero => omega
    | succ i =>
      rw [trace_succ_shift]
      cases Nat.eq_zero_or_pos i with
      | inl h0 =>
        subst h0
        exact h.1
      | inr hpos =>
        exact ih _ _ h.2 i hpos (by omega)

theorem good_flagsB_eq_true (s : GridTieInverter) :
    good_flagsB s = true ↔
      s.grid_voltage_ok = true ∧ s.grid_frequency_ok = true ∧ s.pv_voltage_ok = true := by
  simp [good_flagsB, Bool.and_eq_true, and_assoc]

theorem step_of_idle (env : LibmEnv) (m : Measurements) (s : GridTieInverter)
    (hs : s.state = InverterState.Idle)
    (hgv : (GridTieInverter.update_flags (GridTieInverter.ingest m s)).grid_voltage_ok = true)
    (hpv : (GridTieInverter.update_flags (GridTieInverter.ingest m s)).pv_voltage_ok = true) :
    (GridTieInverter.step env m s).state = InverterState.Startup ∧
    (GridTieInverter.step env m s).state_timer = 0 := by
  have hustate : (GridTieInverter.update_flags (GridTieInverter.ingest m s)).state
      = InverterState.Idle := hs
  have hrun : GridTieInverter.run_state env
      (GridTieInverter.update_flags (GridTieInverter.ingest m s))
      = GridTieInverter.state_idle
          (GridTieInverter.update_flags (GridTieInverter.ingest m s)) := by
    simp only [GridTieInverter.run_state, hustate]
  have hidle : GridTieInverter.state_idle
      (GridTieInverter.update_flags (GridTieInverter.ingest m s))
      = GridTieInverter.transition_to_state
          (GridTieInverter.update_flags (GridTieInverter.ingest m s))
          InverterState.Startup := by
    unfold GridTieInverter.state_idle
    rw [hgv, hpv]
    simp
  unfold GridTieInverter.step GridTieInverter.update
  rw [check_protections_of_ne _ (by rw [ingest_state, hs]; simp), hrun, hidle]
  exact ⟨(generate_outputs_fst_fields _).1, (generate_outputs_fst_fields _).2.1⟩

theorem run_state_of_startup (env : LibmEnv) (s : GridTieInverter)
    (h : s.state = InverterState.Startup) :
    GridTieInverter.run_state env s = GridTieInverter.state_startup s := by
  simp only [GridTieInverter.run_state, h]

theorem step_startup_window (env : LibmEnv) (m : Measurements) (s : GridTieInverter)
    (hs : s.state = InverterState.Startup)
    (hw : s.state_timer + s.config.sample_time < 0.01)
    (hgv : (GridTieInverter.update_flags (GridTieInverter.ingest m s)).grid_voltage_ok = true)
    (hgf : (GridTieInverter.update_flags (GridTieInverter.ingest m s)).grid_frequency_ok = true) :
    (GridTieInverter.step env m s).state = InverterState.Startup ∧
    (GridTieInverter.step env m s).state_timer = s.state_timer + s.config.sample_time ∧
    (GridTieInverter.step env m s).startup_counter = 1 := by
  have hustate : (GridTieInverter.update_flags (GridTieInverter.ingest m s)).state
      = InverterState.Startup := hs
  unfold GridTieInverter.step GridTieInverter.update
  rw [check_protections_of_ne _ (by rw [ingest_state, hs]; simp),
    run_state_of_startup env _ hustate]
  unfold GridTieInverter.state_startup
  rw [ingest_timer_eq, if_pos hw]
  dsimp only
  rw [hgv, hgf]
  simp only [Bool.and_self, if_pos rfl, ite_true]
  norm_num
  refine ⟨?_, ?_, ?_⟩
  · rw [(generate_outputs_fst_fields _).1]
    exact hustate
  · rw [(generate_outputs_fst_fields _).2.1]
  · rw [(generate_outputs_fst_fields _).2.2.1]

theorem step_startup_count (env : LibmEnv) (m : Measurements) (s : GridTieInverter)
    (hs : s.state = InverterState.Startup)
    (hw : ¬(s.state_timer + s.config.sample_time < 0.01))
    (hgv : (GridTieInverter.update_flags (GridTieInverter.ingest m s)).grid_voltage_ok = true)
    (hgf : (GridTieInverter.update_flags (GridTieInverter.ingest m s)).grid_frequency_ok = true)
    (hc : s.startup_counter + 1 ≤ 100) :
    (GridTieInverter.step env m s).state = InverterState.Startup ∧
    (GridTieInverter.step env m s).state_timer = s.state_timer + s.config.sample_time ∧
    (GridTieInverter.step env m s).startup_counter = s.startup_counter + 1 := by
  have hustate : (GridTieInverter.update_flags (GridTieInverter.ingest m s)).state
      = InverterState.Startup := hs
  unfold GridTieInverter.step GridTieInverter.update
  rw [check_protections_of_ne _ (by rw [ingest_state, hs]; simp),
    run_state_of_startup env _ hustate]
  unfold GridTieInverter.state_startup
  rw [ingest_timer_eq, if_neg hw]
  dsimp only
  rw [hgv, hgf]
  simp only [Bool.and_self, if_pos rfl, ite_true]
  rw [ingest_counter_eq, if_neg (by omega : ¬(100 < s.startup_counter + 1))]
  refine ⟨?_, ?_, ?_⟩
  · rw [(generate_outputs_fst_fields _).1]
    exact hustate
  · rw [(generate_outputs_fst_fields _).2.1]
    exact ingest_timer_eq m s
  · rw [(generate_outputs_fst_fields _).2.2.1]

theorem step_startup_fire (env : LibmEnv) (m : Measurements) (s : GridTieInverter)
    (hs : s.state = InverterState.Startup)
    (hw : ¬(s.state_timer + s.config.sample_time < 0.01))
    (hgv : (GridTieInverter.update_flags (GridTieInverter.ingest m s)).grid_voltage_ok = true)
    (hgf : (GridTieInverter.update_flags (GridTieInverter.ingest m s)).grid_frequency_ok = true)
    (hc : 100 < s.startup_counter + 1) :
    (GridTieInverter.step env m s).state = InverterState.PLLSync ∧
    (GridTieInverter.step env m s).state_timer = 0 := by
  have hustate : (GridTieInverter.update_flags (GridTieInverter.ingest m s)).state
      = InverterState.Startup := hs
  unfold GridTieInverter.step GridTieInverter.update
  rw [check_protections_of_ne _ (by rw [ingest_state, hs]; simp),
    run_state_of_startup env _ hustate]
  unfold GridTieInverter.state_startup
  rw [ingest_timer_eq, if_neg hw]
  dsimp only
  rw [hgv, hgf]
  simp only [Bool.and_self, if_pos rfl, ite_true]
  rw [ingest_counter_eq, if_pos hc]
  exact ⟨(generate_outputs_fst_fields _).1, (generate_outputs_fst_fields _).2.1⟩

theorem run_state_of_pll_sync (env : LibmEnv) (s : GridTieInverter)
    (h : s.state = InverterState.PLLSync) :
    GridTieInverter.run_state env s = GridTieInverter.state_pll_sync env s := by
  simp only [GridTieInverter.run_state, h]

theorem step_pll_hold (env : LibmEnv) (m : Measurements) (s : GridTieInverter)
    (hs : s.state = InverterState.PLLSync)
    (hw : ¬(s.config.pll_settling_time < s.state_timer + s.config.sample_time)) :
    (GridTieInverter.step env m s).state = InverterState.PLLSync ∧
    (GridTieInverter.step env m s).state_timer = s.state_timer + s.config.sample_time := by
  have hustate : (GridTieInverter.update_flags (GridTieInverter.ingest m s)).state
      = InverterState.PLLSync := hs
  unfold GridTieInverter.step GridTieInverter.update
  rw [check_protections_of_ne _ (by rw [ingest_state, hs]; simp),
    run_state_of_pll_sync env _ hustate]
  unfold GridTieInverter.state_pll_sync
  dsimp only
  rw [ingest_timer_eq, ingest_config_eq, if_neg hw]
  refine ⟨?_, ?_⟩
  · rw [(generate_outputs_fst_fields _).1]
    exact hustate
  · rw [(generate_outputs_fst_fields _).2.1]

theorem step_pll_fire (env : LibmEnv) (m : Measurements) (s : GridTieInverter)
    (hs : s.state = InverterState.PLLSync)
    (hw : s.config.pll_settling_time < s.state_timer + s.config.sample_time)
    (hgf : (GridTieInverter.update_flags (GridTieInverter.ingest m s)).grid_frequency_ok = true) :
    (GridTieInverter.step env m s).state = InverterState.PowerFlow := by
  have hustate : (GridTieInverter.update_flags (GridTieInverter.ingest m s)).state
      = InverterState.PLLSync := hs
  unfold GridTieInverter.step GridTieInverter.update
  rw [check_protections_of_ne _ (by rw [ingest_state, hs]; simp),
    run_state_of_pll_sync env _ hustate]
  unfold GridTieInverter.state_pll_sync
  dsimp only
  rw [ingest_timer_eq, ingest_config_eq, if_pos hw, hgf]
  simp only [if_pos rfl, ite_true]
  rw [(generate_outputs_fst_fields _).1]
  rfl

/-- Claim C1 (amended): at the documented 10 kHz rate
(`sample_time = 100 µs`) and with `pll_settling_time` a whole number of
sample periods `S/10000`, starting from `Idle` with `grid_voltage_ok`,
`grid_frequency_ok` and `pv_voltage_ok` all true on every tick, the state
first becomes `PLLSync` at tick 200 (1 `Idle` tick plus 199 `Startup` ticks,
i.e. after more than 100 consecutive good-condition ticks, and never before
tick 200), and becomes `PowerFlow` on the first tick whose `PLLSync` dwell
strictly exceeds the settling time, i.e. tick `201 + S`. -/
theorem c1_state_progression_amended (env : LibmEnv) (mf : ℕ → Measurements)
    (s₀ : GridTieInverter) (S : ℕ)
    (hts : s₀.config.sample_time = 1 / 10000)
    (hsettle : s₀.config.pll_settling_time = (S : ℚ) / 10000)
    (hidle : s₀.state = InverterState.Idle)
    (hflags : ∀ k ∈ Finset.Icc 1 (201 + S),
      good_flagsB (GridTieInverter.trace env mf s₀ k) = true) :
    (GridTieInverter.trace env mf s₀ 200).state = InverterState.PLLSync ∧
    (∀ n ≤ 199, (GridTieInverter.trace env mf s₀ n).state ≠ InverterState.PLLSync) ∧
    (GridTieInverter.trace env mf s₀ (201 + S)).state = InverterState.PowerFlow := by
  have hcfg : ∀ n : ℕ, (GridTieInverter.trace env mf s₀ n).config = s₀.config := by
    intro n
    induction n with
    | zero => rfl
    | succ k ih =>
      show (GridTieInverter.step env (mf k) (GridTieInverter.trace env mf s₀ k)).config = _
      rw [step_config]
      exact ih
  have hffl : ∀ j : ℕ, j + 1 ≤ 201 + S →
      (GridTieInverter.trace env mf s₀ j).state ≠ InverterState.PowerFlow →
      (GridTieInverter.update_flags (GridTieInverter.ingest (mf j)
          (GridTieInverter.trace env mf s₀ j))).grid_voltage_ok = true ∧
      (GridTieInverter.update_flags (GridTieInverter.ingest (mf j)
          (GridTieInverter.trace env mf s₀ j))).grid_frequency_ok = true ∧
      (GridTieInverter.update_flags (GridTieInverter.ingest (mf j)
          (GridTieInverter.trace env mf s₀ j))).pv_voltage_ok = true := by
    intro j hj hne
    have h1 := hflags (j + 1) (Finset.mem_Icc.mpr ⟨by omega, hj⟩)
    have h2 : good_flagsB (GridTieInverter.step env (mf j)
        (GridTieInverter.trace env mf s₀ j)) = true := h1
    rw [step_good_flags env (mf j) _ hne] at h2
    exact (good_flagsB_eq_true _).mp h2
  have claimA : ∀ j : ℕ, 1 ≤ j → j ≤ 199 →
      (GridTieInverter.trace env mf s₀ j).state = InverterState.Startup ∧
      (GridTieInverter.trace env mf s₀ j).state_timer = ((j : ℚ) - 1) / 10000 ∧
      (2 ≤ j → (GridTieInverter.trace env mf s₀ j).startup_counter = max 1 (j - 99)) := by
    intro j
    induction j with
    | zero => intro h; omega
    | succ i ih =>
      intro _ hle
      cases Nat.eq_zero_or_pos i with
      | inl h0 =>
        subst h0
        have h0state : (GridTieInverter.trace env mf s₀ 0).state
            = InverterState.Idle := hidle
        have hne : (GridTieInverter.trace env mf s₀ 0).state
            ≠ InverterState.PowerFlow := by
          rw [h0state]
          simp
        obtain ⟨hgv, _, hpv⟩ := hffl 0 (by omega) hne
        have hstep := step_of_idle env (mf 0) s₀ hidle hgv hpv
        refine ⟨hstep.1, ?_, fun h2 => absurd h2 (by omega)⟩
        show (GridTieInverter.step env (mf 0) s₀).state_timer = _
        rw [hstep.2]
        norm_num
      | inr hpos =>
        obtain ⟨hA1, hA2, hA3⟩ := ih hpos (by omega)
        have hne : (GridTieInverter.trace env mf s₀ i).state
            ≠ InverterState.PowerFlow := by rw [hA1]; simp
        obtain ⟨hgv, hgf, _⟩ := hffl i (by omega) hne
        have hTs : (GridTieInverter.trace env mf s₀ i).config.sample_time
            = 1 / 10000 := by rw [hcfg]; exact hts
        by_cases hwin : i < 100
        · have hi99 : (i : ℚ) ≤ 99 := by exact_mod_cast Nat.lt_succ_iff.mp hwin
          have hwcond : (GridTieInverter.trace env mf s₀ i).state_timer
              + (GridTieInverter.trace env mf s₀ i).config.sample_time < 0.01 := by
            rw [hA2, hTs]
            norm_num
            linarith
          have hstep := step_startup_window env (mf i) _ hA1 hwcond hgv hgf
          refine ⟨hstep.1, ?_, ?_⟩
          · show (GridTieInverter.step env (mf i)
              (GridTieInverter.trace env mf s₀ i)).state_timer = _
            rw [hstep.2.1, hA2, hTs]
            push_cast
            ring
          · intro _
            show (GridTieInverter.step env (mf i)
              (GridTieInverter.trace env mf s₀ i)).startup_counter = _
            rw [hstep.2.2]
            exact (Nat.max_eq_left (by omega)).symm
        · have hge : 100 ≤ i := by omega
          have hgeq : (100 : ℚ) ≤ (i : ℚ) := by exact_mod_cast hge
          have hcnt : (GridTieInverter.trace env mf s₀ i).startup_counter = i - 99 := by
            rw [hA3 (by omega)]
            exact Nat.max_eq_right (by omega)
          have hwcond : ¬((GridTieInverter.trace env mf s₀ i).state_timer
              + (GridTieInverter.trace env mf s₀ i).config.sample_time < 0.01) := by
            rw [hA2, hTs]
            norm_num
            linarith
          have hstep := step_startup_count env (mf i) _ hA1 hwcond hgv hgf
            (by rw [hcnt]; omega)
          refine ⟨hstep.1, ?_, ?_⟩
          · show (GridTieInverter.step env (mf i)
              (GridTieInverter.trace env mf s₀ i)).state_timer = _
            rw [hstep.2.1, hA2, hTs]
            push_cast
            ring
          · intro _
            show (GridTieInverter.step env (mf i)
              (GridTieInverter.trace env mf s₀ i)).startup_counter = _
            rw [hstep.2.2, hcnt, Nat.max_eq_right (by omega : 1 ≤ i + 1 - 99)]
            omega
  have hB : (GridTieInverter.trace env mf s₀ 200).state = InverterState.PLLSync ∧
      (GridTieInverter.trace env mf s₀ 200).state_timer = 0 := by
    obtain ⟨hA1, hA2, hA3⟩ := claimA 199 (by omega) (le_refl _)
    have hcnt : (GridTieInverter.trace env mf s₀ 199).startup_counter = 100 := by
      rw [hA3 (by omega)]
      decide
    have hne : (GridTieInverter.trace env mf s₀ 199).state
        ≠ InverterState.PowerFlow := by rw [hA1]; simp
    obtain ⟨hgv, hgf, _⟩ := hffl 199 (by omega) hne
    have hTs : (GridTieInverter.trace env mf s₀ 199).config.sample_time
        = 1 / 10000 := by rw [hcfg]; exact hts
    have hwcond : ¬((GridTieInverter.trace env mf s₀ 199).state_timer
        + (GridTieInverter.trace env mf s₀ 199).config.sample_time < 0.01) := by
      rw [hA2, hTs]
      norm_num
    rw [show (200 : ℕ) = 199 + 1 from rfl, trace_succ]
    exact step_startup_fire env (mf 199) _ hA1 hwcond hgv hgf (by rw [hcnt]; omega)
  have hC : ∀ i : ℕ, i ≤ S →
      (GridTieInverter.trace env mf s₀ (200 + i)).state = InverterState.PLLSync ∧
      (GridTieInverter.trace env mf s₀ (200 + i)).state_timer = (i : ℚ) / 10000 := by
    intro i
    induction i with
    | zero => intro _; exact ⟨hB.1, by rw [hB.2]; norm_num⟩
    | succ i2 ih =>
      intro hle
      obtain ⟨hC1, hC2⟩ := ih (by omega)
      have hTs : (GridTieInverter.trace env mf s₀ (200 + i2)).config.sample_time
          = 1 / 10000 := by rw [hcfg]; exact hts
      have hse : (GridTieInverter.trace env mf s₀ (200 + i2)).config.pll_settling_time
          = (S : ℚ) / 10000 := by rw [hcfg]; exact hsettle
      have hiS : (i2 : ℚ) + 1 ≤ (S : ℚ) := by exact_mod_cast hle
      have hwcond : ¬((GridTieInverter.trace env mf s₀ (200 + i2)).config.pll_settling_time
          < (GridTieInverter.trace env mf s₀ (200 + i2)).state_timer
            + (GridTieInverter.trace env mf s₀ (200 + i2)).config.sample_time) := by
        rw [hse, hC2, hTs, not_lt]
        linarith
      have hstep := step_pll_hold env (mf (200 + i2)) _ hC1 hwcond
      refine ⟨hstep.1, ?_⟩
      show (GridTieInverter.step env (mf (200 + i2))
        (GridTieInverter.trace env mf s₀ (200 + i2))).state_timer = _
      rw [hstep.2, hC2, hTs]
      push_cast
      ring
  refine ⟨hB.1, ?_, ?_⟩
  · intro n hn
    cases Nat.eq_zero_or_pos n with
    | inl h0 =>
      subst h0
      have h0state : (GridTieInverter.trace env mf s₀ 0).state
          = InverterState.Idle := hidle
      rw [h0state]
      simp
    | inr hpos =>
      rw [(claimA n hpos hn).1]
      simp
  · obtain ⟨hC1, hC2⟩ := hC S (le_refl _)
    have hne : (GridTieInverter.trace env mf s₀ (200 + S)).state
        ≠ InverterState.PowerFlow := by rw [hC1]; simp
    obtain ⟨_, hgf, _⟩ := hffl (200 + S) (by omega) hne
    have hTs : (GridTieInverter.trace env mf s₀ (200 + S)).config.sample_time
        = 1 / 10000 := by rw [hcfg]; exact hts
    have hse : (GridTieInverter.trace env mf s₀ (200 + S)).config.pll_settling_time
        = (S : ℚ) / 10000 := by rw [hcfg]; exact hsettle
    have hwcond : (GridTieInverter.trace env mf s₀ (200 + S)).config.pll_settling_time
        < (GridTieInverter.trace env mf s₀ (200 + S)).state_timer
          + (GridTieInverter.trace env mf s₀ (200 + S)).config.sample_time := by
      rw [hse, hC2, hTs]
      linarith
    have hstep := step_pll_fire env (mf (200 + S)) _ hC1 hwcond hgf
    rw [show 201 + S = (200 + S) + 1 from by omega]
    exact hstep

/-- Claim C1 (counterexample): the progression fails as stated. Starting
from an `Idle` state whose cached grid peak is healthy (325 V) but whose
grid frequency estimate is still 0 (`sample_time = 10 ms`), the run keeps
`grid_voltage_ok && pv_voltage_ok` true on all of the first 110 ticks, yet
the state is never `PLLSync` during those ticks: because
`grid_frequency_ok` is false, the `Startup` counter keeps being zeroed and
after 1 s the machine enters `Fault GridStartupFault` instead (the state at
tick 110). -/
theorem c1_state_progression_counterexample :
    (run_all vp_flagsB env_zero (fun _ => meas_good) 110 inv_c1).1 = true ∧
    (run_all (fun s => !(decide (s.state = InverterState.PLLSync))) env_zero
        (fun _ => meas_good) 110 inv_c1).1 = true ∧
    inv_c1.state = InverterState.Idle ∧
    (GridTieInverter.trace env_zero (fun _ => meas_good) inv_c1 110).state
      = InverterState.Fault FaultType.GridStartupFault := by
  refine ⟨?_, ?_, rfl, ?_⟩ <;> with_unfolding_all decide

/-- Claim C1 witness: the amended progression instantiated on a concrete
run (default configuration with `pll_settling_time = 0`, healthy cached
peak and frequency, constant healthy measurements): all flags hold on every
one of the first 201 ticks, `PLLSync` is first reached at tick 200 and
`PowerFlow` at tick 201. -/
theorem c1_state_progression_witness :
    (∀ k ∈ Finset.Icc 1 (201 + 0),
      good_flagsB (GridTieInverter.trace env_zero (fun _ => meas_good) inv_w1 k) = true) ∧
    ((GridTieInverter.trace env_zero (fun _ => meas_good) inv_w1 200).state
        = InverterState.PLLSync ∧
      (∀ n ≤ 199, (GridTieInverter.trace env_zero (fun _ => meas_good) inv_w1 n).state
          ≠ InverterState.PLLSync) ∧
      (GridTieInverter.trace env_zero (fun _ => meas_good) inv_w1 (201 + 0)).state
        = InverterState.PowerFlow) := by
  have hgood : ∀ k ∈ Finset.Icc 1 (201 + 0),
      good_flagsB (GridTieInverter.trace env_zero (fun _ => meas_good) inv_w1 k) = true := by
    intro k hk
    obtain ⟨h1, h2⟩ := Finset.mem_Icc.mp hk
    exact run_all_fst good_flagsB env_zero 201 (fun _ => meas_good) inv_w1
      (by with_unfolding_all decide) k h1 (by omega)
  exact ⟨hgood, c1_state_progression_amended env_zero (fun _ => meas_good) inv_w1 0
    (by show (0.0001 : ℚ) = 1 / 10000; norm_num)
    (by show (0 : ℚ) = ((0 : ℕ) : ℚ) / 10000; norm_num) rfl hgood⟩
